import Mathlib

/-!
Verification of the GEOSIF-ARSET repository's glue code.

The repository has two source files:
* `notebooks/gosif.ipynb` — the Python function `convert_geotiff_to_png`
  that reads the first band of a GeoTIFF, masks values above a sentinel
  threshold, normalizes the remaining range onto a colormap, writes a
  transparent PNG at dpi 360, and writes a JSON sidecar with the raster's
  bounds, width, height and CRS; plus notebook cells that call a
  `geosif` helper module (not present in the repository) to download
  granules over a date range.
* `notebooks/gosif.html` — a static OpenLayers viewer whose
  `loadGeoPNG(pngUrl, metadataUrl)` fetches the sidecar JSON, builds the
  extent `[bounds.left, bounds.bottom, bounds.right, bounds.top]`, and
  inserts an image overlay into the map's layer collection, with one
  try/catch around the whole body that logs and skips the overlay.

This file shallowly embeds those functions and proves the spec's claims
about them.  Pixel values of the GOSIF GeoTIFF are integers, so the band
is a `List ℤ`; real-valued quantities (bounds, figure sizes, normalized
colors) are `ℚ`.
-/

namespace GeoSif

/-! ### JSON / JavaScript values

A single value type serves both the Python writer (`json.dump`) and the
JavaScript reader (`metadata.bounds.left` etc.).  `undefined` is JavaScript's
`undefined`, the result of reading an absent property; the Python writer
never produces it. -/

inductive JsValue where
  | undefined : JsValue
  | num : ℚ → JsValue
  | str : String → JsValue
  | obj : List (String × JsValue) → JsValue

/-- JavaScript truthiness for the values we model: `undefined`, `0` and
`""` are falsy; objects and other numbers/strings are truthy. -/
def JsValue.truthy : JsValue → Bool
  | .undefined => false
  | .num q => q != 0
  | .str s => s != ""
  | .obj _ => true

/-- Key lookup in an object's field list (first match, like a JS object). -/
def JsValue.field : JsValue → String → Option JsValue
  | .obj fields, k => fields.lookup k
  | _, _ => none

/-- The keys of an object value, in order. -/
def JsValue.keys : JsValue → List String
  | .obj fields => fields.map Prod.fst
  | _ => []

/-- JavaScript property access `v[k]` as a fallible operation:
accessing a property of `undefined` throws a `TypeError` (modelled as
`Except.error`); accessing an absent property of anything else yields
`undefined`. -/
def jsIndex : JsValue → String → Except String JsValue
  | .undefined, _ => .error "TypeError: cannot read properties of undefined"
  | .obj fields, k => .ok ((fields.lookup k).getD .undefined)
  | _, _ => .ok .undefined

/-! ### The converter, `convert_geotiff_to_png` (notebooks/gosif.ipynb)

```python
def convert_geotiff_to_png(geotiff_path, output_png_path, output_metadata_path, threshold=32760):
    with rasterio.open(geotiff_path) as src:
        data = src.read(1)
        metadata = {
            "bounds": src.bounds._asdict(),
            "width": src.width,
            "height": src.height,
            "crs": src.crs.to_string()
        }
        mask = data > threshold
        valid_data = np.ma.masked_array(data, mask)
        vmin = np.nanmin(valid_data)
        vmax = np.nanmax(valid_data[valid_data <= threshold])
        norm_data = colors.Normalize(vmin=vmin, vmax=vmax)
        dpi = 360
        width_inches = src.width / dpi
        height_inches = src.height / dpi
        cmap = plt.cm.viridis.copy()
        cmap.set_bad(alpha=0)
        ...
        ax.imshow(valid_data, cmap=cmap, norm=norm_data, ...)
        plt.savefig(output_png_path, dpi=dpi, ..., transparent=True)
        with open(output_metadata_path, "w") as f:
            json.dump(metadata, f)
```
-/

/-- A rasterio `BoundingBox`: the named tuple `(left, bottom, right, top)`
whose `_asdict()` the converter serializes. -/
structure BoundingBox where
  left : ℚ
  bottom : ℚ
  right : ℚ
  top : ℚ
deriving Repr, DecidableEq

/-- The part of an opened rasterio dataset the converter uses: the first
band (`src.read(1)`, flattened row-major), `src.width`, `src.height`,
`src.bounds` and `src.crs.to_string()`. -/
structure Raster where
  band1 : List ℤ
  width : ℕ
  height : ℕ
  bounds : BoundingBox
  crs : String

/-- `src.bounds._asdict()` — the bounds as a JSON object with the named
tuple's keys in field order. -/
def BoundingBox.asdict (b : BoundingBox) : JsValue :=
  .obj [("left", .num b.left), ("bottom", .num b.bottom),
        ("right", .num b.right), ("top", .num b.top)]

/-- The `metadata` dict the converter builds and `json.dump`s. -/
def metadataJson (src : Raster) : JsValue :=
  .obj [("bounds", src.bounds.asdict),
        ("width", .num src.width),
        ("height", .num src.height),
        ("crs", .str src.crs)]

/-- `mask = data > threshold`, elementwise. -/
def maskOf (data : List ℤ) (threshold : ℤ) : List Bool :=
  data.map (fun v => decide (threshold < v))

/-- The unmasked entries of `np.ma.masked_array(data, mask)`: exactly the
values not exceeding the threshold.  `np.nanmin(valid_data)` is the
minimum over these. -/
def unmaskedValues (data : List ℤ) (threshold : ℤ) : List ℤ :=
  data.filter (fun v => !decide (threshold < v))

/-- The selection `valid_data[valid_data <= threshold]` over which
`np.nanmax` is taken. -/
def vmaxSelection (data : List ℤ) (threshold : ℤ) : List ℤ :=
  (unmaskedValues data threshold).filter (fun v => decide (v ≤ threshold))

/-- `colors.Normalize(vmin=vmin, vmax=vmax)` applied to a value:
`(v - vmin) / (vmax - vmin)` over the rationals. -/
def normalizeValue (vmin vmax v : ℤ) : ℚ :=
  ((v : ℚ) - (vmin : ℚ)) / ((vmax : ℚ) - (vmin : ℚ))

/-- One rendered pixel: `none` is a fully transparent pixel (the masked
"bad" color after `cmap.set_bad(alpha=0)`), `some c` a colormapped pixel
at normalized position `c`. -/
def renderPixel (threshold vmin vmax : ℤ) (v : ℤ) : Option ℚ :=
  if threshold < v then none else some (normalizeValue vmin vmax v)

/-- The figure's dpi, fixed in the source. -/
def figureDpi : ℚ := 360

/-- The PNG the converter saves: one entry per source pixel (`none` =
transparent), the figure size in inches, the save dpi, and the
`transparent=True` flag passed to `plt.savefig`. -/
structure PngImage where
  pixels : List (Option ℚ)
  widthInches : ℚ
  heightInches : ℚ
  dpi : ℚ
  transparentBackground : Bool

/-- What one call of `convert_geotiff_to_png` writes: the PNG, the JSON
sidecar, and the normalization range it used. -/
structure ConvertOutput where
  png : PngImage
  metadata : JsValue
  vmin : ℤ
  vmax : ℤ

/-- The converter's default masking threshold (`threshold=32760`). -/
def defaultThreshold : ℤ := 32760

/-- Shallow embedding of `convert_geotiff_to_png`.  `none` models the
call raising: `np.nanmax` of the empty selection raises `ValueError`
when every pixel exceeds the threshold. -/
def convert_geotiff_to_png (src : Raster)
    (threshold : ℤ := defaultThreshold) : Option ConvertOutput :=
  let metadata := metadataJson src
  match (unmaskedValues src.band1 threshold).min?,
        (vmaxSelection src.band1 threshold).max? with
  | some vmin, some vmax =>
      some
        { png :=
            { pixels := src.band1.map (renderPixel threshold vmin vmax)
              widthInches := (src.width : ℚ) / figureDpi
              heightInches := (src.height : ℚ) / figureDpi
              dpi := figureDpi
              transparentBackground := true }
          metadata := metadata
          vmin := vmin
          vmax := vmax }
  | _, _ => none

/-- The example invocation in the notebook passes the three paths and no
threshold, so it runs with the default. -/
def exampleInvocation (src : Raster) : Option ConvertOutput :=
  convert_geotiff_to_png src

/-! ### The viewer, `loadGeoPNG` (notebooks/gosif.html)

```javascript
async function loadGeoPNG(pngUrl, metadataUrl) {
    try {
        const metadataResponse = await fetch(metadataUrl);
        const metadata = await metadataResponse.json();
        const bounds = metadata.bounds;
        const extent = [bounds.left, bounds.bottom, bounds.right, bounds.top];
        const sifLayer = new ol.layer.Image({
            source: new ol.source.ImageStatic({
                url: pngUrl,
                imageExtent: extent,
                projection: metadata.crs || 'EPSG:4326'
            }),
            opacity: 0.9
        });
        map.getLayers().insertAt(1, sifLayer);
    } catch (error) {
        console.error('Error loading colormapped PNG:', error);
    }
}
```
-/

/-- The configuration of `new ol.source.ImageStatic({...})`. -/
structure ImageStaticSource where
  url : String
  imageExtent : List JsValue
  projection : JsValue

/-- The configuration of `new ol.layer.Image({...})`. -/
structure ImageLayerConfig where
  source : ImageStaticSource
  opacity : ℚ

/-- A layer in the map's layer collection. -/
inductive OlLayer where
  | vectorTile : String → OlLayer
  | image : ImageLayerConfig → OlLayer

/-- The fallible steps of `loadGeoPNG` that are performed by the browser
or the OpenLayers library: the network fetch, `response.json()` parsing,
and the image-layer construction.  Each may throw (`Except.error`). -/
structure ViewerEnv where
  fetchMetadata : Except String Unit
  parseJson : Except String JsValue
  mkImageLayer : ImageLayerConfig → Except String OlLayer

/-- `const bounds = metadata.bounds;` followed by
`const extent = [bounds.left, bounds.bottom, bounds.right, bounds.top];`. -/
def buildExtent (metadata : JsValue) : Except String (List JsValue) := do
  let bounds ← jsIndex metadata "bounds"
  let l ← jsIndex bounds "left"
  let b ← jsIndex bounds "bottom"
  let r ← jsIndex bounds "right"
  let t ← jsIndex bounds "top"
  pure [l, b, r, t]

/-- `metadata.crs || 'EPSG:4326'` — the overlay projection. -/
def projectionOf (metadata : JsValue) : Except String JsValue := do
  let c ← jsIndex metadata "crs"
  pure (if c.truthy then c else .str "EPSG:4326")

/-- The body of the viewer's `try` block, up to the layer that would be
inserted: fetch, parse, build the extent and projection, and construct
the image layer. -/
def loadGeoPNGBody (env : ViewerEnv) (pngUrl : String) :
    Except String OlLayer := do
  let _ ← env.fetchMetadata
  let metadata ← env.parseJson
  let extent ← buildExtent metadata
  let proj ← projectionOf metadata
  env.mkImageLayer
    { source := { url := pngUrl, imageExtent := extent, projection := proj }
      opacity := 9 / 10 }

/-- `loadGeoPNG` acting on the map's layer collection.  On success the
layer is inserted at index 1; on any thrown error the catch logs
`console.error('Error loading colormapped PNG:', error)` and the layer
collection is untouched.  The function itself never throws to its
caller. -/
def loadGeoPNG (env : ViewerEnv) (pngUrl : String)
    (layers : List OlLayer) : List OlLayer × List String :=
  match loadGeoPNGBody env pngUrl with
  | .ok sifLayer => (layers.insertIdx 1 sifLayer, [])
  | .error e => (layers, ["Error loading colormapped PNG: " ++ e])

/-! ### The archive download step, `download_timerange`

The notebook calls `dl.download_timerange(dataset, start_date, end_date,
outpath=..., parallel=True)` from the `geosif` helper module, which is
not part of the repository; only its caller and the spec's description
are available. -/

/-- A date in the requested range, abstracted to a natural number. -/
abbrev DLDate := ℕ

/-- The local file path of the granule for a date.  The constructor is
one-to-one, matching distinct dates having distinct granule filenames. -/
structure GranulePath where
  date : DLDate
deriving Repr, DecidableEq

/-- The archive URL of the granule for a date. -/
structure GranuleUrl where
  date : DLDate
deriving Repr, DecidableEq

/-- The remote archive as the download step sees it: whether a date has
a granule at all, and whether fetching that granule succeeds. -/
structure Archive where
  hasData : DLDate → Bool
  fetchSucceeds : DLDate → Bool

/-- Accumulated result of the download step: the three collections it
returns (downloaded granule paths, dates with no data, failed download
URLs), the set of files on disk, and — for stating the no-re-fetch
property — the dates for which a network fetch was actually attempted. -/
structure DownloadResult where
  downloaded : List GranulePath
  notfound : List DLDate
  failed : List GranuleUrl
  localFiles : List GranulePath
  fetchAttempts : List DLDate

/-- Modelled from the spec: the per-date behavior of
`GesDiscDownloader.download_timerange`, whose implementation (the
`geosif` module) is missing from the repository.  Per §4 it partitions
the dates into three collections — successfully downloaded, dates with
no data, and failed downloads — and per §7/§8 and the notebook's
troubleshooting note ("retrying the operation will only download the
files that you do not already have") a date whose granule file is
already on disk is not fetched again and is reported among the
successfully downloaded files. -/
def downloadStep (ar : Archive) (acc : DownloadResult) (d : DLDate) :
    DownloadResult :=
  if GranulePath.mk d ∈ acc.localFiles then
    { acc with downloaded := acc.downloaded ++ [GranulePath.mk d] }
  else if ar.hasData d = false then
    { acc with notfound := acc.notfound ++ [d] }
  else if ar.fetchSucceeds d then
    { acc with
        downloaded := acc.downloaded ++ [GranulePath.mk d]
        localFiles := acc.localFiles ++ [GranulePath.mk d]
        fetchAttempts := acc.fetchAttempts ++ [d] }
  else
    { acc with
        failed := acc.failed ++ [GranuleUrl.mk d]
        fetchAttempts := acc.fetchAttempts ++ [d] }

/-- Modelled from the spec: `download_timerange` over a list of dates,
starting from the files already on disk. -/
def download_timerange (ar : Archive) (dates : List DLDate)
    (localFiles : List GranulePath) : DownloadResult :=
  dates.foldl (downloadStep ar)
    { downloaded := []
      notfound := []
      failed := []
      localFiles := localFiles
      fetchAttempts := [] }

/-! ### Helper lemmas -/

/-- Unfolding a successful conversion: the output is exactly the record
the source builds, with `vmin`/`vmax` the values `np.nanmin`/`np.nanmax`
returned. -/
theorem convert_spec (src : Raster) (threshold : ℤ) (out : ConvertOutput)
    (h : convert_geotiff_to_png src threshold = some out) :
    (unmaskedValues src.band1 threshold).min? = some out.vmin ∧
    (vmaxSelection src.band1 threshold).max? = some out.vmax ∧
    out.metadata = metadataJson src ∧
    out.png =
      { pixels := src.band1.map (renderPixel threshold out.vmin out.vmax)
        widthInches := (src.width : ℚ) / figureDpi
        heightInches := (src.height : ℚ) / figureDpi
        dpi := figureDpi
        transparentBackground := true } := by
  unfold convert_geotiff_to_png at h
  rcases hmin : (unmaskedValues src.band1 threshold).min? with _ | vmin <;>
    rcases hmax : (vmaxSelection src.band1 threshold).max? with _ | vmax <;>
      rw [hmin, hmax] at h
  · exact absurd h (by simp)
  · exact absurd h (by simp)
  · exact absurd h (by simp)
  · injection h with h
    subst h
    exact ⟨rfl, rfl, rfl, rfl⟩

/-- The selection `valid_data[valid_data <= threshold]` is the same list
as the unmasked values: masking already removed everything above the
threshold. -/
theorem vmaxSelection_eq_unmaskedValues (data : List ℤ) (threshold : ℤ) :
    vmaxSelection data threshold = unmaskedValues data threshold := by
  apply List.filter_eq_self.mpr
  intro v hv
  have := List.of_mem_filter hv
  simpa using this

/-- The unmasked values are exactly the values `≤ threshold`, in order. -/
theorem unmaskedValues_eq_filter_le (data : List ℤ) (threshold : ℤ) :
    unmaskedValues data threshold = data.filter (fun v => decide (v ≤ threshold)) := by
  unfold unmaskedValues
  congr 1
  funext v
  by_cases h : threshold < v
  · simp [h, not_le_of_lt h]
  · simp [h, not_lt.mp h]

/-! ### Concrete fixtures used by the witnesses -/

/-- A small concrete raster: one pixel below the default threshold, one
sentinel pixel above it. -/
def sampleRaster : Raster :=
  { band1 := [5, 40000]
    width := 2
    height := 1
    bounds := { left := -180, bottom := -90, right := 180, top := 90 }
    crs := "EPSG:4326" }

/-- A throwaway output used only as the default of `Option.getD`. -/
def fallbackOutput : ConvertOutput :=
  { png := { pixels := [], widthInches := 0, heightInches := 0, dpi := 0,
             transparentBackground := false }
    metadata := .undefined
    vmin := 0
    vmax := 0 }

/-- The (successful) conversion of `sampleRaster` at the default
threshold. -/
def sampleOut : ConvertOutput :=
  (convert_geotiff_to_png sampleRaster 32760).getD fallbackOutput

/-! ### The claims -/

/-- C8: the masking sentinel threshold of `convert_geotiff_to_png`
defaults to `32760` when the caller does not pass the `threshold`
parameter, and the example invocation (which passes only the three
paths) relies on this default. -/
theorem convert_default_threshold :
    defaultThreshold = 32760 ∧
    ∀ src : Raster, exampleInvocation src = convert_geotiff_to_png src 32760 :=
  ⟨rfl, fun _ => rfl⟩

/-- C7: for every source raster whose first band has `width * height`
pixels, a successful conversion writes a transparent-background image
whose pixel extent corresponds to the source raster's width and height:
the figure is `width/dpi` by `height/dpi` inches at `dpi = 360`, so the
saved image spans exactly `width` by `height` pixels, one rendered entry
per source pixel. -/
theorem png_matches_raster_dimensions (src : Raster) (threshold : ℤ)
    (out : ConvertOutput)
    (hconv : convert_geotiff_to_png src threshold = some out)
    (hband : src.band1.length = src.width * src.height) :
    out.png.transparentBackground = true ∧
    out.png.dpi = 360 ∧
    out.png.widthInches = (src.width : ℚ) / 360 ∧
    out.png.heightInches = (src.height : ℚ) / 360 ∧
    out.png.widthInches * out.png.dpi = (src.width : ℚ) ∧
    out.png.heightInches * out.png.dpi = (src.height : ℚ) ∧
    out.png.pixels.length = src.width * src.height := by
  obtain ⟨-, -, -, hpng⟩ := convert_spec src threshold out hconv
  rw [hpng]
  refine ⟨rfl, rfl, rfl, rfl, ?_, ?_, ?_⟩
  · show (src.width : ℚ) / figureDpi * figureDpi = _
    rw [div_mul_cancel₀]
    norm_num [figureDpi]
  · show (src.height : ℚ) / figureDpi * figureDpi = _
    rw [div_mul_cancel₀]
    norm_num [figureDpi]
  · simpa using hband

/-- Witness for C7 at the concrete `sampleRaster`. -/
theorem png_matches_raster_dimensions_witness :
    sampleOut.png.transparentBackground = true ∧
    sampleOut.png.dpi = 360 ∧
    sampleOut.png.widthInches = (sampleRaster.width : ℚ) / 360 ∧
    sampleOut.png.heightInches = (sampleRaster.height : ℚ) / 360 ∧
    sampleOut.png.widthInches * sampleOut.png.dpi = (sampleRaster.width : ℚ) ∧
    sampleOut.png.heightInches * sampleOut.png.dpi = (sampleRaster.height : ℚ) ∧
    sampleOut.png.pixels.length = sampleRaster.width * sampleRaster.height :=
  png_matches_raster_dimensions sampleRaster 32760 sampleOut (by rfl) (by rfl)

/-- C2: round-trip of the bounding-box metadata — the extent
`[left, bottom, right, top]` that the viewer's `loadGeoPNG` builds from
the sidecar JSON equals the bounds `convert_geotiff_to_png` recorded
from the source raster. -/
theorem metadata_extent_roundtrip (src : Raster) (threshold : ℤ)
    (out : ConvertOutput)
    (h : convert_geotiff_to_png src threshold = some out) :
    buildExtent out.metadata =
      .ok [.num src.bounds.left, .num src.bounds.bottom,
           .num src.bounds.right, .num src.bounds.top] := by
  obtain ⟨-, -, hmeta, -⟩ := convert_spec src threshold out h
  rw [hmeta]
  rfl

/-- Witness for C2 at the concrete `sampleRaster`. -/
theorem metadata_extent_roundtrip_witness :
    buildExtent sampleOut.metadata =
      .ok [.num (-180), .num (-90), .num 180, .num 90] :=
  metadata_extent_roundtrip sampleRaster 32760 sampleOut (by rfl)

/-- C4: `metadata.crs || 'EPSG:4326'` — if `crs` is absent or falsy in
the fetched metadata object, the viewer uses the default CRS string
`'EPSG:4326'` as the overlay projection; if `crs` is present and truthy
it uses that value. -/
theorem crs_default_fallback (fields : List (String × JsValue)) :
    (fields.lookup "crs" = none →
      projectionOf (.obj fields) = .ok (.str "EPSG:4326")) ∧
    (∀ c, fields.lookup "crs" = some c → c.truthy = false →
      projectionOf (.obj fields) = .ok (.str "EPSG:4326")) ∧
    (∀ c, fields.lookup "crs" = some c → c.truthy = true →
      projectionOf (.obj fields) = .ok c) := by
  refine ⟨fun h => ?_, fun c hc ht => ?_, fun c hc ht => ?_⟩
  · simp [projectionOf, jsIndex, h, JsValue.truthy]
  · simp [projectionOf, jsIndex, hc, ht]
  · simp [projectionOf, jsIndex, hc, ht]

/-- Witness for C4: absent `crs`, falsy `crs`, and truthy `crs`. -/
theorem crs_default_fallback_witness :
    projectionOf (.obj []) = .ok (.str "EPSG:4326") ∧
    projectionOf (.obj [("crs", .str "")]) = .ok (.str "EPSG:4326") ∧
    projectionOf (.obj [("crs", .str "EPSG:3857")]) = .ok (.str "EPSG:3857") :=
  ⟨(crs_default_fallback []).1 rfl,
   (crs_default_fallback [("crs", .str "")]).2.1 _ rfl rfl,
   (crs_default_fallback [("crs", .str "EPSG:3857")]).2.2 _ rfl rfl⟩

/-- C5: when the viewer's metadata fetch fails, `loadGeoPNG` catches the
error, logs it to the console, and skips adding the overlay layer — the
layer collection is returned unchanged and the function returns normally
instead of rethrowing. -/
theorem fetch_error_caught_logged (env : ViewerEnv) (pngUrl : String)
    (layers : List OlLayer) (e : String)
    (h : env.fetchMetadata = .error e) :
    loadGeoPNG env pngUrl layers =
      (layers, ["Error loading colormapped PNG: " ++ e]) := by
  unfold loadGeoPNG loadGeoPNGBody
  rw [h]
  rfl

/-- A viewer environment whose metadata fetch fails. -/
def sampleFetchFailEnv : ViewerEnv :=
  { fetchMetadata := .error "network unreachable"
    parseJson := .ok .undefined
    mkImageLayer := fun cfg => .ok (.image cfg) }

/-- Witness for C5 at a concrete failing environment. -/
theorem fetch_error_caught_logged_witness :
    loadGeoPNG sampleFetchFailEnv "data/GOSIF_2020.M06.png" [] =
      ([], ["Error loading colormapped PNG: " ++ "network unreachable"]) :=
  fetch_error_caught_logged sampleFetchFailEnv "data/GOSIF_2020.M06.png" [] _ rfl

/-- C3: the sidecar metadata written by `convert_geotiff_to_png` is a
JSON object with exactly the keys `bounds` (an object with numeric
`left`, `bottom`, `right`, `top`), `width` and `height` (integer-valued
numbers), and `crs` (a string); and the viewer builds its rendering
extent by reading exactly the four bound keys `bounds.left`,
`bounds.bottom`, `bounds.right`, `bounds.top`, in that order. -/
theorem sidecar_schema_and_viewer_reads (src : Raster) :
    (metadataJson src).keys = ["bounds", "width", "height", "crs"] ∧
    (metadataJson src).field "bounds" = some src.bounds.asdict ∧
    (src.bounds.asdict).keys = ["left", "bottom", "right", "top"] ∧
    src.bounds.asdict =
      .obj [("left", .num src.bounds.left), ("bottom", .num src.bounds.bottom),
            ("right", .num src.bounds.right), ("top", .num src.bounds.top)] ∧
    (metadataJson src).field "width" = some (.num (src.width : ℚ)) ∧
    (metadataJson src).field "height" = some (.num (src.height : ℚ)) ∧
    (metadataJson src).field "crs" = some (.str src.crs) ∧
    ∀ m : JsValue,
      buildExtent m =
        (do
          let l ← jsIndex m "bounds" >>= fun b => jsIndex b "left"
          let bo ← jsIndex m "bounds" >>= fun b => jsIndex b "bottom"
          let r ← jsIndex m "bounds" >>= fun b => jsIndex b "right"
          let t ← jsIndex m "bounds" >>= fun b => jsIndex b "top"
          Except.ok [l, bo, r, t]) := by
  refine ⟨rfl, rfl, rfl, rfl, rfl, rfl, rfl, ?_⟩
  intro m
  cases m with
  | undefined => rfl
  | num q => rfl
  | str s => rfl
  | obj fields =>
      rcases hb : (List.lookup "bounds" fields).getD JsValue.undefined with
        _ | q | s | innerFields <;>
        simp [buildExtent, jsIndex, hb, Bind.bind, Except.bind] <;> rfl

/-- C10: for every failure at any point inside `loadGeoPNG` — the
network fetch, the JSON parsing of the metadata response, or the
construction of the image layer — the map's layer collection is left
unchanged (no partial overlay is added) and the function completes
normally instead of throwing, because the single try/catch encloses the
entire body including the layer insertion. -/
theorem viewer_failure_leaves_map_unchanged (env : ViewerEnv)
    (pngUrl : String) (layers : List OlLayer) :
    (∀ e, env.fetchMetadata = .error e →
      (loadGeoPNG env pngUrl layers).1 = layers) ∧
    (∀ e, env.parseJson = .error e →
      (loadGeoPNG env pngUrl layers).1 = layers) ∧
    (∀ e, (∀ cfg, env.mkImageLayer cfg = .error e) →
      (loadGeoPNG env pngUrl layers).1 = layers) ∧
    (∀ e, loadGeoPNGBody env pngUrl = .error e →
      loadGeoPNG env pngUrl layers =
        (layers, ["Error loading colormapped PNG: " ++ e])) := by
  have hgen : ∀ e, loadGeoPNGBody env pngUrl = .error e →
      loadGeoPNG env pngUrl layers =
        (layers, ["Error loading colormapped PNG: " ++ e]) := by
    intro e he
    unfold loadGeoPNG
    rw [he]
  refine ⟨fun e he => ?_, fun e he => ?_, fun e hmk => ?_, hgen⟩
  · have : loadGeoPNGBody env pngUrl = .error e := by
      unfold loadGeoPNGBody
      rw [he]
      rfl
    rw [hgen e this]
  · rcases hf : env.fetchMetadata with ef | u
    · have : loadGeoPNGBody env pngUrl = .error ef := by
        unfold loadGeoPNGBody
        rw [hf]
        rfl
      rw [hgen ef this]
    · have : loadGeoPNGBody env pngUrl = .error e := by
        unfold loadGeoPNGBody
        rw [hf, he]
        rfl
      rw [hgen e this]
  · rcases hb : loadGeoPNGBody env pngUrl with eb | sifLayer
    · rw [hgen eb hb]
    · exfalso
      unfold loadGeoPNGBody at hb
      rcases hf : env.fetchMetadata with ef | u <;> rw [hf] at hb
      · exact Except.noConfusion hb
      rcases hp : env.parseJson with ep | metadata <;> rw [hp] at hb
      · exact Except.noConfusion hb
      have hb2 : (do
          let extent ← buildExtent metadata
          let proj ← projectionOf metadata
          env.mkImageLayer
            { source :=
                { url := pngUrl, imageExtent := extent, projection := proj }
              opacity := 9 / 10 }) = Except.ok sifLayer := hb
      rcases hext : buildExtent metadata with ee | extent <;> rw [hext] at hb2
      · exact Except.noConfusion hb2
      have hb3 : (do
          let proj ← projectionOf metadata
          env.mkImageLayer
            { source :=
                { url := pngUrl, imageExtent := extent, projection := proj }
              opacity := 9 / 10 }) = Except.ok sifLayer := hb2
      rcases hproj : projectionOf metadata with epj | proj <;> rw [hproj] at hb3
      · exact Except.noConfusion hb3
      have hb4 : env.mkImageLayer
          { source :=
              { url := pngUrl, imageExtent := extent, projection := proj }
            opacity := 9 / 10 } = Except.ok sifLayer := hb3
      rw [hmk _] at hb4
      exact Except.noConfusion hb4

/-- A viewer environment whose metadata response fails to parse. -/
def sampleParseFailEnv : ViewerEnv :=
  { fetchMetadata := .ok ()
    parseJson := .error "SyntaxError: unexpected token"
    mkImageLayer := fun cfg => .ok (.image cfg) }

/-- A viewer environment where the image-layer constructor throws. -/
def sampleLayerFailEnv : ViewerEnv :=
  { fetchMetadata := .ok ()
    parseJson := .ok (metadataJson sampleRaster)
    mkImageLayer := fun _ => .error "layer construction failed" }

/-- Witness for C10: a fetch failure, a parse failure, and a
layer-construction failure each leave an empty layer collection
untouched, and a failing body yields exactly the unchanged collection
plus the console log. -/
theorem viewer_failure_leaves_map_unchanged_witness :
    (loadGeoPNG sampleFetchFailEnv "data/GOSIF_2020.M06.png" []).1 = [] ∧
    (loadGeoPNG sampleParseFailEnv "data/GOSIF_2020.M06.png" []).1 = [] ∧
    (loadGeoPNG sampleLayerFailEnv "data/GOSIF_2020.M06.png" []).1 = [] ∧
    loadGeoPNG sampleFetchFailEnv "data/GOSIF_2020.M06.png" [] =
      ([], ["Error loading colormapped PNG: " ++ "network unreachable"]) :=
  ⟨(viewer_failure_leaves_map_unchanged sampleFetchFailEnv
      "data/GOSIF_2020.M06.png" []).1 "network unreachable" rfl,
   (viewer_failure_leaves_map_unchanged sampleParseFailEnv
      "data/GOSIF_2020.M06.png" []).2.1 "SyntaxError: unexpected token" rfl,
   (viewer_failure_leaves_map_unchanged sampleLayerFailEnv
      "data/GOSIF_2020.M06.png" []).2.2.1 "layer construction failed"
      (fun _ => rfl),
   (viewer_failure_leaves_map_unchanged sampleFetchFailEnv
      "data/GOSIF_2020.M06.png" []).2.2.2 "network unreachable" (by rfl)⟩

/-- C1: in `convert_geotiff_to_png`, every source pixel value strictly
greater than the threshold is rendered fully transparent and is excluded
from the color-normalization range; the normalization range is exactly
`[minimum of the valid data, maximum of the valid data]`, where valid
means value ≤ threshold. -/
theorem masking_and_normalization_range (src : Raster) (threshold : ℤ)
    (out : ConvertOutput)
    (h : convert_geotiff_to_png src threshold = some out) :
    (∀ (i : ℕ) (v : ℤ), src.band1[i]? = some v → threshold < v →
      out.png.pixels[i]? = some (none : Option ℚ)) ∧
    (∀ v ∈ src.band1, threshold < v →
      v ∉ unmaskedValues src.band1 threshold ∧
      v ∉ vmaxSelection src.band1 threshold) ∧
    unmaskedValues src.band1 threshold =
      src.band1.filter (fun v => decide (v ≤ threshold)) ∧
    (out.vmin ∈ unmaskedValues src.band1 threshold ∧
      ∀ v ∈ unmaskedValues src.band1 threshold, out.vmin ≤ v) ∧
    (out.vmax ∈ unmaskedValues src.band1 threshold ∧
      ∀ v ∈ unmaskedValues src.band1 threshold, v ≤ out.vmax) := by
  obtain ⟨hmin, hmax, -, hpng⟩ := convert_spec src threshold out h
  haveI : Std.Antisymm (fun a b : ℤ => a ≤ b) := ⟨fun h1 h2 => le_antisymm h1 h2⟩
  refine ⟨?_, ?_, unmaskedValues_eq_filter_le _ _, ?_, ?_⟩
  · intro i v hi hv
    rw [hpng]
    show (List.map (renderPixel threshold out.vmin out.vmax) src.band1)[i]? =
      some none
    rw [List.getElem?_map, hi]
    simp [renderPixel, hv]
  · intro v hv hgt
    constructor
    · intro hmem
      have := (List.mem_filter.mp hmem).2
      simp [hgt] at this
    · intro hmem
      rw [vmaxSelection_eq_unmaskedValues] at hmem
      have := (List.mem_filter.mp hmem).2
      simp [hgt] at this
  · exact (List.min?_eq_some_iff (fun x => le_refl x) (fun x y => min_choice x y)
      (fun x y z => le_min_iff)).mp hmin
  · rw [vmaxSelection_eq_unmaskedValues] at hmax
    exact (List.max?_eq_some_iff (fun x => le_refl x) (fun x y => max_choice x y)
      (fun x y z => max_le_iff)).mp hmax

/-- Witness for C1 at `sampleRaster`: the sentinel pixel `40000` is
rendered transparent and excluded from the valid data, and the range is
`[5, 5]`. -/
theorem masking_and_normalization_range_witness :
    sampleOut.png.pixels[1]? = some none ∧
    (40000 : ℤ) ∉ unmaskedValues sampleRaster.band1 32760 ∧
    sampleOut.vmin ∈ unmaskedValues sampleRaster.band1 32760 ∧
    sampleOut.vmax ∈ unmaskedValues sampleRaster.band1 32760 :=
  ⟨(masking_and_normalization_range sampleRaster 32760 sampleOut (by rfl)).1
      1 40000 rfl (by decide),
   ((masking_and_normalization_range sampleRaster 32760 sampleOut (by rfl)).2.1
      40000 (by decide) (by decide)).1,
   (masking_and_normalization_range sampleRaster 32760 sampleOut
      (by rfl)).2.2.2.1.1,
   (masking_and_normalization_range sampleRaster 32760 sampleOut
      (by rfl)).2.2.2.2.1⟩

/-- C9: `convert_geotiff_to_png` requires at least one pixel of the
first band to be at most the threshold — if every pixel exceeds it, the
`np.nanmax` over the empty selection fails with an error instead of
producing an image; if some valid pixel exists, the conversion
succeeds. -/
theorem convert_requires_valid_pixel (src : Raster) (threshold : ℤ) :
    ((∀ v ∈ src.band1, threshold < v) →
      convert_geotiff_to_png src threshold = none) ∧
    ((∃ v ∈ src.band1, v ≤ threshold) →
      (convert_geotiff_to_png src threshold).isSome = true) := by
  constructor
  · intro hall
    have hempty : vmaxSelection src.band1 threshold = [] := by
      rw [vmaxSelection_eq_unmaskedValues]
      apply List.filter_eq_nil_iff.mpr
      intro v hv
      simp [hall v hv]
    unfold convert_geotiff_to_png
    rw [hempty]
    rcases hm : (unmaskedValues src.band1 threshold).min? with _ | m <;> rfl
  · rintro ⟨v, hv, hle⟩
    have hmem : v ∈ unmaskedValues src.band1 threshold :=
      List.mem_filter.mpr ⟨hv, by simp [not_lt.mpr hle]⟩
    have hmem2 : v ∈ vmaxSelection src.band1 threshold := by
      rw [vmaxSelection_eq_unmaskedValues]
      exact hmem
    rcases hmin : (unmaskedValues src.band1 threshold).min? with _ | m
    · exact absurd (List.min?_eq_none_iff.mp hmin) (List.ne_nil_of_mem hmem)
    rcases hmax : (vmaxSelection src.band1 threshold).max? with _ | M
    · exact absurd (List.max?_eq_none_iff.mp hmax) (List.ne_nil_of_mem hmem2)
    unfold convert_geotiff_to_png
    rw [hmin, hmax]
    rfl

/-- Witness for C9: an all-sentinel raster fails, and `sampleRaster`
(which has one valid pixel) succeeds. -/
theorem convert_requires_valid_pixel_witness :
    convert_geotiff_to_png
      { band1 := [40000, 50000], width := 2, height := 1,
        bounds := { left := 0, bottom := 0, right := 1, top := 1 },
        crs := "EPSG:4326" } 32760 = none ∧
    (convert_geotiff_to_png sampleRaster 32760).isSome = true :=
  ⟨(convert_requires_valid_pixel
      { band1 := [40000, 50000], width := 2, height := 1,
        bounds := { left := 0, bottom := 0, right := 1, top := 1 },
        crs := "EPSG:4326" } 32760).1 (by decide),
   (convert_requires_valid_pixel sampleRaster 32760).2 ⟨5, by decide, by decide⟩⟩

/-! ### Idempotence of the download step -/

/-- A single download step never removes a file from disk. -/
theorem downloadStep_localFiles_mono (ar : Archive) (acc : DownloadResult)
    (d : DLDate) (p : GranulePath) (h : p ∈ acc.localFiles) :
    p ∈ (downloadStep ar acc d).localFiles := by
  unfold downloadStep
  split_ifs <;> simp [h]

/-- A single download step never removes an entry from the downloaded
collection. -/
theorem downloadStep_downloaded_mono (ar : Archive) (acc : DownloadResult)
    (d : DLDate) (p : GranulePath) (h : p ∈ acc.downloaded) :
    p ∈ (downloadStep ar acc d).downloaded := by
  unfold downloadStep
  split_ifs <;> simp [h]

/-- Folding the download step never removes an entry from the downloaded
collection. -/
theorem foldl_downloaded_mono (ar : Archive) (ds : List DLDate)
    (p : GranulePath) :
    ∀ acc : DownloadResult, p ∈ acc.downloaded →
      p ∈ (ds.foldl (downloadStep ar) acc).downloaded := by
  induction ds with
  | nil => exact fun acc h => h
  | cons d' rest ih =>
      exact fun acc h => ih _ (downloadStep_downloaded_mono ar acc d' p h)

/-- A date whose granule file is on disk, and which was not fetched yet,
is never fetched by the remaining steps. -/
theorem foldl_no_refetch (ar : Archive) (ds : List DLDate) (d : DLDate) :
    ∀ acc : DownloadResult, GranulePath.mk d ∈ acc.localFiles →
      d ∉ acc.fetchAttempts →
      d ∉ (ds.foldl (downloadStep ar) acc).fetchAttempts := by
  induction ds with
  | nil => exact fun acc _ hf => hf
  | cons d' rest ih =>
      intro acc hl hf
      refine ih _ (downloadStep_localFiles_mono ar acc d' _ hl) ?_
      by_cases hdd : d' = d
      · subst hdd
        unfold downloadStep
        rw [if_pos hl]
        exact hf
      · have hne : ¬ d = d' := fun hh => hdd hh.symm
        unfold downloadStep
        split_ifs <;> simp [List.mem_append, hf, hne]

/-- A date whose granule file is on disk when the fold reaches it is
reported in the downloaded collection. -/
theorem foldl_reports_downloaded (ar : Archive) (ds : List DLDate)
    (d : DLDate) :
    ∀ acc : DownloadResult, d ∈ ds → GranulePath.mk d ∈ acc.localFiles →
      GranulePath.mk d ∈ (ds.foldl (downloadStep ar) acc).downloaded := by
  induction ds with
  | nil =>
      intro acc hd _
      cases hd
  | cons d' rest ih =>
      intro acc hd hl
      rcases List.mem_cons.mp hd with heq | hmem
      · subst heq
        show GranulePath.mk d ∈
          (rest.foldl (downloadStep ar) (downloadStep ar acc d)).downloaded
        apply foldl_downloaded_mono
        unfold downloadStep
        rw [if_pos hl]
        simp
      · exact ih _ hmem (downloadStep_localFiles_mono ar acc d' _ hl)

/-- A date whose granule file is on disk never lands in the failed
collection. -/
theorem foldl_not_failed (ar : Archive) (ds : List DLDate) (d : DLDate) :
    ∀ acc : DownloadResult, GranulePath.mk d ∈ acc.localFiles →
      GranuleUrl.mk d ∉ acc.failed →
      GranuleUrl.mk d ∉ (ds.foldl (downloadStep ar) acc).failed := by
  induction ds with
  | nil => exact fun acc _ hf => hf
  | cons d' rest ih =>
      intro acc hl hf
      refine ih _ (downloadStep_localFiles_mono ar acc d' _ hl) ?_
      by_cases hdd : d' = d
      · subst hdd
        unfold downloadStep
        rw [if_pos hl]
        exact hf
      · have hne : ¬ d = d' := fun hh => hdd hh.symm
        unfold downloadStep
        split_ifs <;> simp [List.mem_append, hf, GranuleUrl.mk.injEq, hne]

/-- C6: idempotent re-download — invoking `download_timerange` a second
time over the same date range does not re-fetch a granule whose file the
first invocation left on disk, and reports it in the
successfully-downloaded collection rather than in the failed
collection. -/
theorem download_timerange_idempotent (ar : Archive) (dates : List DLDate)
    (localFiles0 : List GranulePath) (d : DLDate) (hd : d ∈ dates)
    (hl : GranulePath.mk d ∈
      (download_timerange ar dates localFiles0).localFiles) :
    d ∉ (download_timerange ar dates
          (download_timerange ar dates localFiles0).localFiles).fetchAttempts ∧
    GranulePath.mk d ∈ (download_timerange ar dates
          (download_timerange ar dates localFiles0).localFiles).downloaded ∧
    GranuleUrl.mk d ∉ (download_timerange ar dates
          (download_timerange ar dates localFiles0).localFiles).failed := by
  refine ⟨?_, ?_, ?_⟩
  · exact foldl_no_refetch ar dates d _ hl (by simp)
  · exact foldl_reports_downloaded ar dates d _ hd hl
  · exact foldl_not_failed ar dates d _ hl (by simp)

/-- An archive where every date has data and every fetch succeeds. -/
def sampleArchive : Archive :=
  { hasData := fun _ => true
    fetchSucceeds := fun _ => true }

/-- Witness for C6: after downloading dates `[0, 1]` from an empty local
directory, re-running the same range does not fetch date `0` again and
reports its file as downloaded, not failed. -/
theorem download_timerange_idempotent_witness :
    0 ∉ (download_timerange sampleArchive [0, 1]
          (download_timerange sampleArchive [0, 1] []).localFiles).fetchAttempts ∧
    GranulePath.mk 0 ∈ (download_timerange sampleArchive [0, 1]
          (download_timerange sampleArchive [0, 1] []).localFiles).downloaded ∧
    GranuleUrl.mk 0 ∉ (download_timerange sampleArchive [0, 1]
          (download_timerange sampleArchive [0, 1] []).localFiles).failed :=
  download_timerange_idempotent sampleArchive [0, 1] [] 0 (by decide) (by decide)

end GeoSif
